import Mathlib

/-!
Shallow embedding of `src/scripts/convert_to_onnx.py`, a command-line
utility that converts a cross-encoder model to an ONNX graph file and
optionally verifies the export.

The script orchestrates three external libraries (torch, transformers,
onnxruntime).  Their behavior is modelled by oracles in an `Env` record:
whether each library is importable, and the outcome (success, or a raised
exception modelled as an opaque string) of each external call the script
makes.  The filesystem is an association list from paths to the artifacts
written there; a write conses a new entry, so the most recent write at a
path shadows older ones.  Every line the script prints is recorded, in
order, in a log; a raised exception that escapes a modelled function is
its `err` component.
-/

/-- The exported-graph artifact: the interface the export call declares
(the `input_names`, `output_names` and `dynamic_axes` arguments of
`torch.onnx.export` at source lines 53-67), plus the opset version the
graph was exported with. -/
structure Artifact where
  input_names : List String
  output_names : List String
  dynamic_axes : List (String × List (Nat × String))
  opset_version : Nat
deriving Repr, DecidableEq

/-- The loaded classification model object; the script only consults its
configured number of labels (source line 71). -/
structure ModelObj where
  num_labels : Nat
deriving Repr, DecidableEq

/-- Filesystem: association list of written files, most recent write first. -/
abbrev FS := List (String × Artifact)

/-- Reading the file at a path: the most recent write wins. -/
def FS.lookup : FS → String → Option Artifact
  | [], _ => none
  | (q, a) :: rest, p => if q = p then some a else FS.lookup rest p

/-- `os.path.exists` on the modelled filesystem. -/
def FS.existsFile (fs : FS) (p : String) : Bool :=
  (FS.lookup fs p).isSome

/-- Writing a file: the new entry shadows any previous entry at that path. -/
def FS.write (fs : FS) (p : String) (a : Artifact) : FS :=
  (p, a) :: fs

/-- Oracles for the external world: importability of the three libraries
(source lines 10-12, 75, 176-177) and the outcome of each external call
the script makes, keyed by the model identifier.  Exceptions raised by
the libraries are opaque strings.  `verify_result` covers the external
work of the verification sub-step (`ort.InferenceSession` plus
`session.run`, lines 78-88), returning the output shape on success. -/
structure Env where
  torch_importable : Bool
  transformers_importable : Bool
  onnxruntime_importable : Bool
  load_tokenizer : String → Except String Unit
  load_model : String → Except String ModelObj
  export_result : String → Nat → Except String Unit
  verify_result : String → Except String (Nat × Nat)

/-- Replace the verification oracle of an environment, keeping all other
components.  Used to express that a run never consults the verification
oracle. -/
def Env.withVerify (env : Env) (v : String → Except String (Nat × Nat)) : Env :=
  ⟨env.torch_importable, env.transformers_importable, env.onnxruntime_importable,
   env.load_tokenizer, env.load_model, env.export_result, v⟩

/-- Does the string start with a slash? (used by `os.path.join`). -/
def startsWithSlash (s : String) : Bool :=
  match s.data with
  | [] => false
  | c :: _ => c == '/'

/-- Does the string end with a slash? (used by `os.path.join`). -/
def endsWithSlash (s : String) : Bool :=
  match s.data.reverse with
  | [] => false
  | c :: _ => c == '/'

/-- `posixpath.dirname` on the character list: everything up to and
including the last slash, with trailing slashes then stripped unless the
head is made of slashes only; the empty list when there is no slash. -/
def dirnameAux (l : List Char) : List Char :=
  let head := (l.reverse.dropWhile (fun c => c != '/')).reverse
  if head.all (fun c => c == '/') then head
  else (head.reverse.dropWhile (fun c => c == '/')).reverse

/-- `os.path.dirname` (POSIX semantics). -/
def os_path_dirname (p : String) : String :=
  String.mk (dirnameAux p.data)

/-- `os.path.join` for the two-argument calls the script makes
(POSIX semantics). -/
def os_path_join (a b : String) : String :=
  if startsWithSlash b then b
  else if a = "" || endsWithSlash a then a ++ b
  else a ++ "/" ++ b

/-- `os.makedirs(path, exist_ok=True)`: an existing directory is not an
error; CPython raises `FileNotFoundError` when the path is empty. Other
I/O failures (permissions, ...) are outside the model. -/
def os_makedirs (p : String) : Except String Unit :=
  if p = "" then Except.error "FileNotFoundError: [Errno 2] No such file or directory"
  else Except.ok ()

/-- Result of running a piece of the script: the final filesystem, the
printed lines in order, and the exception propagating out of it, if any. -/
structure ConvOutcome where
  fs : FS
  log : List String
  err : Option String
deriving Repr, DecidableEq

/-- The artifact written by the export call at source lines 53-67: input
names, output names and dynamic axes exactly as passed to
`torch.onnx.export`. -/
def exportedArtifact (opset_version : Nat) : Artifact :=
  ⟨["input_ids", "attention_mask", "token_type_ids"],
   ["logits"],
   [("input_ids", [(0, "batch_size"), (1, "sequence")]),
    ("attention_mask", [(0, "batch_size"), (1, "sequence")]),
    ("token_type_ids", [(0, "batch_size"), (1, "sequence")]),
    ("logits", [(0, "batch_size")])],
   opset_version⟩

/-- The literal dummy query of source line 37. -/
def dummy_query : String := "What is machine learning?"

/-- The literal dummy document of source line 38. -/
def dummy_doc : String := "Machine learning is a subset of artificial intelligence."

/-- `convert_cross_encoder_to_onnx` (source lines 14-95).  Loads the
tokenizer and the model (failures propagate), tokenizes the fixed dummy
pair (pure, cannot fail), exports the graph to `output_path` (failure
propagates; success writes the artifact declaring the fixed interface),
prints the save messages, then attempts verification: if `onnxruntime`
is importable, builds a session and runs one inference pass (failure
propagates, the file staying written); the `except ImportError` branch
fires exactly when the library is not importable, printing a warning and
skipping verification. -/
def convert_cross_encoder_to_onnx (env : Env) (model_name : String) (output_path : String)
    (max_length : Nat) (opset_version : Nat) (fs : FS) : ConvOutcome :=
  let log0 := ["Loading model: " ++ model_name]
  match env.load_tokenizer model_name with
  | Except.error e => ⟨fs, log0, some e⟩
  | Except.ok _ =>
    match env.load_model model_name with
    | Except.error e => ⟨fs, log0, some e⟩
    | Except.ok model =>
      let log1 := log0 ++ ["Converting to ONNX format..."]
      match env.export_result model_name opset_version with
      | Except.error e => ⟨fs, log1, some e⟩
      | Except.ok _ =>
        let fs1 := FS.write fs output_path (exportedArtifact opset_version)
        let log2 := log1 ++
          ["✅ Model saved to: " ++ output_path,
           "   Model dimensions: batch_size x " ++ toString max_length,
           "   Output shape: batch_size x " ++ toString model.num_labels]
        if env.onnxruntime_importable then
          let log3 := log2 ++ ["Verifying ONNX model..."]
          match env.verify_result model_name with
          | Except.error e => ⟨fs1, log3, some e⟩
          | Except.ok shape =>
            ⟨fs1, log3 ++ ["✅ Verification successful!",
                           "   Output shape: " ++ toString shape], none⟩
        else
          ⟨fs1, log2 ++ ["⚠️ onnxruntime not installed. Skipping verification.",
                         "   Install with: pip install onnxruntime"], none⟩

/-- The fixed batch job list (source lines 103-107). -/
def models : List (String × String) :=
  [("cross-encoder/ms-marco-MiniLM-L6-v2", "ms-marco-MiniLM-L6-v2.onnx"),
   ("cross-encoder/ms-marco-MiniLM-L12-v2", "ms-marco-MiniLM-L12-v2.onnx"),
   ("cross-encoder/ms-marco-TinyBERT-L-2-v2", "ms-marco-TinyBERT-L2-v2.onnx")]

/-- The loop body of the batch driver (source lines 109-119), over an
arbitrary job list: for each (identifier, filename) pair, compute the
destination path; skip if the file exists; otherwise call the conversion
procedure with its default `max_length` 512 and opset 14, catching any
exception it raises (`except Exception`) and logging the failure line. -/
def run_batch (env : Env) (output_dir : String) :
    List (String × String) → FS → FS × List String
  | [], fs => (fs, [])
  | pair :: rest, fs =>
    let output_path := os_path_join output_dir pair.2
    if FS.existsFile fs output_path then
      let r2 := run_batch env output_dir rest fs
      (r2.1, ("⏭️ " ++ pair.2 ++ " already exists, skipping...") :: r2.2)
    else
      let r := convert_cross_encoder_to_onnx env pair.1 output_path 512 14 fs
      match r.err with
      | none =>
        let r2 := run_batch env output_dir rest r.fs
        (r2.1, r.log ++ r2.2)
      | some e =>
        let r2 := run_batch env output_dir rest r.fs
        (r2.1, r.log ++ ("❌ Failed to convert " ++ pair.1 ++ ": " ++ e) :: r2.2)

/-- `download_and_convert_popular_models` (source lines 97-119): create
the output directory (a failure there propagates), then run the batch
loop over the fixed model list. -/
def download_and_convert_popular_models (env : Env) (output_dir : String) (fs : FS) :
    ConvOutcome :=
  match os_makedirs output_dir with
  | Except.error e => ⟨fs, [], some e⟩
  | Except.ok _ =>
    ⟨(run_batch env output_dir models fs).1, (run_batch env output_dir models fs).2, none⟩

/-- The parsed command-line arguments (source lines 122-160), with their
argparse defaults recorded in `defaultArgs`. -/
structure Args where
  model : String
  output : String
  max_length : Nat
  download_popular : Bool
  output_dir : String
deriving Repr, DecidableEq

/-- The argparse defaults (source lines 126-158). -/
def defaultArgs : Args :=
  ⟨"cross-encoder/ms-marco-MiniLM-L6-v2", "models/cross-encoder.onnx", 512, false, "models"⟩

/-- `main` (source lines 121-171): batch mode dispatches to the batch
driver on `--output-dir`; single-model mode first calls
`os.makedirs(os.path.dirname(args.output), exist_ok=True)` (a failure
there propagates before any conversion) and then the conversion
procedure with the default opset 14. -/
def script_main (env : Env) (args : Args) (fs : FS) : ConvOutcome :=
  if args.download_popular then
    download_and_convert_popular_models env args.output_dir fs
  else
    match os_makedirs (os_path_dirname args.output) with
    | Except.error e => ⟨fs, [], some e⟩
    | Except.ok _ =>
      convert_cross_encoder_to_onnx env args.model args.output args.max_length 14 fs

/-- How the process ends: a coded `sys.exit` / normal return, or an
uncaught exception (which the runtime turns into a nonzero status not
explicitly coded by the script). -/
inductive ExitKind where
  | code (n : Nat)
  | uncaught (e : String)
deriving Repr, DecidableEq

/-- Observable outcome of one process run. -/
structure ScriptResult where
  fs : FS
  log : List String
  exit : ExitKind
deriving Repr, DecidableEq

/-- Running `python convert_to_onnx.py` end to end.  The module-level
imports (source lines 10-12: torch first, then transformers) execute
before the `__main__` block; if one is missing the process dies there
with an uncaught ModuleNotFoundError, never reaching the guidance
printer.  Only then does the `__main__` guard (lines 174-181) re-import
transformers and torch inside try/except — a check that can no longer
fail — and call `main`; an exception escaping `main` is uncaught. -/
def run_script (env : Env) (args : Args) (fs : FS) : ScriptResult :=
  if env.torch_importable then
    if env.transformers_importable then
      if env.transformers_importable && env.torch_importable then
        match (script_main env args fs).err with
        | none => ⟨(script_main env args fs).fs, (script_main env args fs).log, ExitKind.code 0⟩
        | some e => ⟨(script_main env args fs).fs, (script_main env args fs).log, ExitKind.uncaught e⟩
      else
        ⟨fs, ["❌ Missing dependencies!", "Install with: pip install transformers torch"],
         ExitKind.code 1⟩
    else ⟨fs, [], ExitKind.uncaught "ModuleNotFoundError: No module named transformers"⟩
  else ⟨fs, [], ExitKind.uncaught "ModuleNotFoundError: No module named torch"⟩

/-- A world where every library is importable and every external call
succeeds (one label, output shape (1, 1)). -/
def envAllOk : Env :=
  ⟨true, true, true,
   fun _ => Except.ok (),
   fun _ => Except.ok ⟨1⟩,
   fun _ _ => Except.ok (),
   fun _ => Except.ok (1, 1)⟩

/-- As `envAllOk`, but `onnxruntime` is not importable. -/
def envNoOrt : Env :=
  ⟨true, true, false,
   fun _ => Except.ok (),
   fun _ => Except.ok ⟨1⟩,
   fun _ _ => Except.ok (),
   fun _ => Except.ok (1, 1)⟩

/-- A world where `torch` is not importable. -/
def envTorchMissing : Env :=
  ⟨false, true, true,
   fun _ => Except.ok (),
   fun _ => Except.ok ⟨1⟩,
   fun _ _ => Except.ok (),
   fun _ => Except.ok (1, 1)⟩

/-- A world where loading the second batch model raises, everything else
succeeding. -/
def envSecondFails : Env :=
  ⟨true, true, true,
   fun _ => Except.ok (),
   fun name =>
     if name = "cross-encoder/ms-marco-MiniLM-L12-v2" then Except.error "HTTPError"
     else Except.ok ⟨1⟩,
   fun _ _ => Except.ok (),
   fun _ => Except.ok (1, 1)⟩

/-- A world where loading the tokenizer raises. -/
def envFailTok : Env :=
  ⟨true, true, true,
   fun _ => Except.error "OSError: model not found",
   fun _ => Except.ok ⟨1⟩,
   fun _ _ => Except.ok (),
   fun _ => Except.ok (1, 1)⟩

/-- A world where loading the model raises, the tokenizer loading fine. -/
def envFailModel : Env :=
  ⟨true, true, true,
   fun _ => Except.ok (),
   fun _ => Except.error "ConnectionError",
   fun _ _ => Except.ok (),
   fun _ => Except.ok (1, 1)⟩

/-- A world where the graph export raises, loading succeeding. -/
def envFailExport : Env :=
  ⟨true, true, true,
   fun _ => Except.ok (),
   fun _ => Except.ok ⟨1⟩,
   fun _ _ => Except.error "UnsupportedOperatorError",
   fun _ => Except.ok (1, 1)⟩

/-- A world where verification execution raises, everything before it
succeeding. -/
def envVerifyFails : Env :=
  ⟨true, true, true,
   fun _ => Except.ok (),
   fun _ => Except.ok ⟨1⟩,
   fun _ _ => Except.ok (),
   fun _ => Except.error "RuntimeError: shape mismatch"⟩

/-- A filesystem in which all three batch outputs already exist under
the directory "models". -/
def fsAllExisting : FS :=
  [("models/ms-marco-MiniLM-L6-v2.onnx", exportedArtifact 14),
   ("models/ms-marco-MiniLM-L12-v2.onnx", exportedArtifact 14),
   ("models/ms-marco-TinyBERT-L2-v2.onnx", exportedArtifact 14)]

/-! ## Theorems -/

/-- C1: for every model converted successfully by the conversion procedure,
the exported graph artifact declares exactly the input names input_ids,
attention_mask, token_type_ids and exactly the output name logits, where
each input has dynamic axes 0 (batch_size) and 1 (sequence) and the logits
output has dynamic axis 0 (batch_size) only. -/
theorem C1_interface_contract (env : Env) (m p : String) (len ops : Nat) (fs : FS)
    (h : (convert_cross_encoder_to_onnx env m p len ops fs).err = none) :
    FS.lookup (convert_cross_encoder_to_onnx env m p len ops fs).fs p
        = some (exportedArtifact ops)
    ∧ (exportedArtifact ops).input_names = ["input_ids", "attention_mask", "token_type_ids"]
    ∧ (exportedArtifact ops).output_names = ["logits"]
    ∧ (exportedArtifact ops).dynamic_axes =
        [("input_ids", [(0, "batch_size"), (1, "sequence")]),
         ("attention_mask", [(0, "batch_size"), (1, "sequence")]),
         ("token_type_ids", [(0, "batch_size"), (1, "sequence")]),
         ("logits", [(0, "batch_size")])] := by
  refine ⟨?_, rfl, rfl, rfl⟩
  unfold convert_cross_encoder_to_onnx at h ⊢
  cases htok : env.load_tokenizer m with
  | error e => simp [htok] at h
  | ok u =>
    cases hmod : env.load_model m with
    | error e => simp [htok, hmod] at h
    | ok M =>
      cases hexp : env.export_result m ops with
      | error e => simp [htok, hmod, hexp] at h
      | ok u2 =>
        cases hrt : env.onnxruntime_importable with
        | false => simp [htok, hmod, hexp, hrt, FS.write, FS.lookup]
        | true =>
          cases hver : env.verify_result m with
          | error e => simp [htok, hmod, hexp, hrt, hver] at h
          | ok s => simp [htok, hmod, hexp, hrt, hver, FS.write, FS.lookup]

/-- Witness for C1: in a world where every call succeeds, the conversion
succeeds and the artifact at the output path declares the contracted
interface. -/
theorem C1_interface_contract_witness :
    (convert_cross_encoder_to_onnx envAllOk "cross-encoder/ms-marco-MiniLM-L6-v2"
        "models/cross-encoder.onnx" 512 14 []).err = none
    ∧ (FS.lookup (convert_cross_encoder_to_onnx envAllOk "cross-encoder/ms-marco-MiniLM-L6-v2"
          "models/cross-encoder.onnx" 512 14 []).fs "models/cross-encoder.onnx"
          = some (exportedArtifact 14)
       ∧ (exportedArtifact 14).input_names = ["input_ids", "attention_mask", "token_type_ids"]
       ∧ (exportedArtifact 14).output_names = ["logits"]
       ∧ (exportedArtifact 14).dynamic_axes =
          [("input_ids", [(0, "batch_size"), (1, "sequence")]),
           ("attention_mask", [(0, "batch_size"), (1, "sequence")]),
           ("token_type_ids", [(0, "batch_size"), (1, "sequence")]),
           ("logits", [(0, "batch_size")])]) :=
  ⟨rfl, C1_interface_contract envAllOk "cross-encoder/ms-marco-MiniLM-L6-v2"
      "models/cross-encoder.onnx" 512 14 [] rfl⟩

/-- C5: when the optional inference-engine library cannot be imported, the
conversion procedure still writes the output artifact, emits the warning,
skips the verification sub-step (its outcome does not depend on the
verification oracle), and returns successfully. -/
theorem C5_missing_optional_dependency (env : Env) (m p : String) (len ops : Nat)
    (fs : FS) (M : ModelObj)
    (hrt : env.onnxruntime_importable = false)
    (htok : env.load_tokenizer m = Except.ok ())
    (hmod : env.load_model m = Except.ok M)
    (hexp : env.export_result m ops = Except.ok ()) :
    (convert_cross_encoder_to_onnx env m p len ops fs).err = none
    ∧ FS.lookup (convert_cross_encoder_to_onnx env m p len ops fs).fs p
        = some (exportedArtifact ops)
    ∧ (convert_cross_encoder_to_onnx env m p len ops fs).log
        = ["Loading model: " ++ m,
           "Converting to ONNX format...",
           "✅ Model saved to: " ++ p,
           "   Model dimensions: batch_size x " ++ toString len,
           "   Output shape: batch_size x " ++ toString M.num_labels,
           "⚠️ onnxruntime not installed. Skipping verification.",
           "   Install with: pip install onnxruntime"]
    ∧ "⚠️ onnxruntime not installed. Skipping verification."
        ∈ (convert_cross_encoder_to_onnx env m p len ops fs).log
    ∧ (∀ v, convert_cross_encoder_to_onnx (Env.withVerify env v) m p len ops fs
          = convert_cross_encoder_to_onnx env m p len ops fs) := by
  refine ⟨?_, ?_, ?_, ?_, ?_⟩ <;>
    simp [convert_cross_encoder_to_onnx, Env.withVerify, htok, hmod, hexp, hrt,
          FS.write, FS.lookup]

/-- Witness for C5: a concrete world without onnxruntime. -/
theorem C5_missing_optional_dependency_witness :
    envNoOrt.onnxruntime_importable = false
    ∧ envNoOrt.load_tokenizer "m" = Except.ok ()
    ∧ envNoOrt.load_model "m" = Except.ok ⟨1⟩
    ∧ envNoOrt.export_result "m" 14 = Except.ok ()
    ∧ ((convert_cross_encoder_to_onnx envNoOrt "m" "out.onnx" 512 14 []).err = none
       ∧ FS.lookup (convert_cross_encoder_to_onnx envNoOrt "m" "out.onnx" 512 14 []).fs
            "out.onnx" = some (exportedArtifact 14)
       ∧ (convert_cross_encoder_to_onnx envNoOrt "m" "out.onnx" 512 14 []).log
          = ["Loading model: " ++ "m",
             "Converting to ONNX format...",
             "✅ Model saved to: " ++ "out.onnx",
             "   Model dimensions: batch_size x " ++ toString 512,
             "   Output shape: batch_size x " ++ toString (ModelObj.mk 1).num_labels,
             "⚠️ onnxruntime not installed. Skipping verification.",
             "   Install with: pip install onnxruntime"]
       ∧ "⚠️ onnxruntime not installed. Skipping verification."
            ∈ (convert_cross_encoder_to_onnx envNoOrt "m" "out.onnx" 512 14 []).log
       ∧ (∀ v, convert_cross_encoder_to_onnx (Env.withVerify envNoOrt v) "m" "out.onnx" 512 14 []
             = convert_cross_encoder_to_onnx envNoOrt "m" "out.onnx" 512 14 [])) :=
  ⟨rfl, rfl, rfl, rfl,
   C5_missing_optional_dependency envNoOrt "m" "out.onnx" 512 14 [] ⟨1⟩ rfl rfl rfl rfl⟩

/-- C7: within the conversion procedure, a failure raised during tokenizer
loading, model loading, or graph export propagates to the caller uncaught:
the outcome carries exactly the raised exception, the filesystem is
untouched, and only the lines printed before the failure were logged. -/
theorem C7_failures_propagate (env : Env) (m p : String) (len ops : Nat)
    (fs : FS) (e : String) :
    (env.load_tokenizer m = Except.error e →
       convert_cross_encoder_to_onnx env m p len ops fs
         = ⟨fs, ["Loading model: " ++ m], some e⟩)
    ∧ (env.load_tokenizer m = Except.ok () → env.load_model m = Except.error e →
       convert_cross_encoder_to_onnx env m p len ops fs
         = ⟨fs, ["Loading model: " ++ m], some e⟩)
    ∧ (∀ M, env.load_tokenizer m = Except.ok () → env.load_model m = Except.ok M →
       env.export_result m ops = Except.error e →
       convert_cross_encoder_to_onnx env m p len ops fs
         = ⟨fs, ["Loading model: " ++ m, "Converting to ONNX format..."], some e⟩) := by
  refine ⟨?_, ?_, ?_⟩
  · intro htok
    simp [convert_cross_encoder_to_onnx, htok]
  · intro htok hmod
    simp [convert_cross_encoder_to_onnx, htok, hmod]
  · intro M htok hmod hexp
    simp [convert_cross_encoder_to_onnx, htok, hmod, hexp]

/-- Witness for C7: concrete worlds where the tokenizer load, the model
load and the export raise, respectively. -/
theorem C7_failures_propagate_witness :
    convert_cross_encoder_to_onnx envFailTok "m" "out.onnx" 512 14 []
      = ⟨[], ["Loading model: " ++ "m"], some "OSError: model not found"⟩
    ∧ convert_cross_encoder_to_onnx envFailModel "m" "out.onnx" 512 14 []
      = ⟨[], ["Loading model: " ++ "m"], some "ConnectionError"⟩
    ∧ convert_cross_encoder_to_onnx envFailExport "m" "out.onnx" 512 14 []
      = ⟨[], ["Loading model: " ++ "m", "Converting to ONNX format..."],
         some "UnsupportedOperatorError"⟩ :=
  ⟨(C7_failures_propagate envFailTok "m" "out.onnx" 512 14 [] "OSError: model not found").1 rfl,
   (C7_failures_propagate envFailModel "m" "out.onnx" 512 14 [] "ConnectionError").2.1 rfl rfl,
   (C7_failures_propagate envFailExport "m" "out.onnx" 512 14 []
      "UnsupportedOperatorError").2.2 ⟨1⟩ rfl rfl rfl⟩

/-- C8: the verification sub-step handles only the library-absent case: an
exception raised during verification execution itself propagates out of
the procedure, at a point where the output artifact has already been
written. -/
theorem C8_verification_failure_propagates (env : Env) (m p : String) (len ops : Nat)
    (fs : FS) (M : ModelObj) (e : String)
    (hrt : env.onnxruntime_importable = true)
    (htok : env.load_tokenizer m = Except.ok ())
    (hmod : env.load_model m = Except.ok M)
    (hexp : env.export_result m ops = Except.ok ())
    (hver : env.verify_result m = Except.error e) :
    (convert_cross_encoder_to_onnx env m p len ops fs).err = some e
    ∧ FS.lookup (convert_cross_encoder_to_onnx env m p len ops fs).fs p
        = some (exportedArtifact ops) := by
  refine ⟨?_, ?_⟩ <;>
    simp [convert_cross_encoder_to_onnx, htok, hmod, hexp, hrt, hver,
          FS.write, FS.lookup]

/-- Witness for C8: a concrete world where verification execution raises. -/
theorem C8_verification_failure_propagates_witness :
    envVerifyFails.onnxruntime_importable = true
    ∧ envVerifyFails.load_tokenizer "m" = Except.ok ()
    ∧ envVerifyFails.load_model "m" = Except.ok ⟨1⟩
    ∧ envVerifyFails.export_result "m" 14 = Except.ok ()
    ∧ envVerifyFails.verify_result "m" = Except.error "RuntimeError: shape mismatch"
    ∧ ((convert_cross_encoder_to_onnx envVerifyFails "m" "out.onnx" 512 14 []).err
          = some "RuntimeError: shape mismatch"
       ∧ FS.lookup (convert_cross_encoder_to_onnx envVerifyFails "m" "out.onnx" 512 14 []).fs
            "out.onnx" = some (exportedArtifact 14)) :=
  ⟨rfl, rfl, rfl, rfl, rfl,
   C8_verification_failure_propagates envVerifyFails "m" "out.onnx" 512 14 [] ⟨1⟩
     "RuntimeError: shape mismatch" rfl rfl rfl rfl rfl⟩

/-- C6: the conversion procedure performs no existence check on its output
path — its printed lines and propagated exception are the same for any two
starting filesystems — and on a successful export it writes exactly one
file there, shadowing (overwriting) any file previously at that path and
leaving every other path untouched. -/
theorem C6_no_existence_check_overwrite (env : Env) (m p : String) (len ops : Nat)
    (M : ModelObj)
    (htok : env.load_tokenizer m = Except.ok ())
    (hmod : env.load_model m = Except.ok M)
    (hexp : env.export_result m ops = Except.ok ()) :
    (∀ fs₁ fs₂ : FS,
        (convert_cross_encoder_to_onnx env m p len ops fs₁).err
          = (convert_cross_encoder_to_onnx env m p len ops fs₂).err
        ∧ (convert_cross_encoder_to_onnx env m p len ops fs₁).log
          = (convert_cross_encoder_to_onnx env m p len ops fs₂).log)
    ∧ (∀ fs : FS,
        (convert_cross_encoder_to_onnx env m p len ops fs).fs
            = FS.write fs p (exportedArtifact ops)
        ∧ FS.lookup (convert_cross_encoder_to_onnx env m p len ops fs).fs p
            = some (exportedArtifact ops)
        ∧ (∀ q, q ≠ p →
            FS.lookup (convert_cross_encoder_to_onnx env m p len ops fs).fs q
              = FS.lookup fs q)) := by
  constructor
  · intro fs₁ fs₂
    cases hrt : env.onnxruntime_importable with
    | false => simp [convert_cross_encoder_to_onnx, htok, hmod, hexp, hrt]
    | true =>
      cases hver : env.verify_result m with
      | error e => simp [convert_cross_encoder_to_onnx, htok, hmod, hexp, hrt, hver]
      | ok s => simp [convert_cross_encoder_to_onnx, htok, hmod, hexp, hrt, hver]
  · intro fs
    refine ⟨?_, ?_, ?_⟩
    · cases hrt : env.onnxruntime_importable with
      | false => simp [convert_cross_encoder_to_onnx, htok, hmod, hexp, hrt]
      | true =>
        cases hver : env.verify_result m with
        | error e => simp [convert_cross_encoder_to_onnx, htok, hmod, hexp, hrt, hver]
        | ok s => simp [convert_cross_encoder_to_onnx, htok, hmod, hexp, hrt, hver]
    · cases hrt : env.onnxruntime_importable with
      | false =>
        simp [convert_cross_encoder_to_onnx, htok, hmod, hexp, hrt, FS.write, FS.lookup]
      | true =>
        cases hver : env.verify_result m with
        | error e =>
          simp [convert_cross_encoder_to_onnx, htok, hmod, hexp, hrt, hver,
                FS.write, FS.lookup]
        | ok s =>
          simp [convert_cross_encoder_to_onnx, htok, hmod, hexp, hrt, hver,
                FS.write, FS.lookup]
    · intro q hq
      have hpq : ¬ p = q := fun h => hq h.symm
      cases hrt : env.onnxruntime_importable with
      | false =>
        simp [convert_cross_encoder_to_onnx, htok, hmod, hexp, hrt,
              FS.write, FS.lookup, hpq]
      | true =>
        cases hver : env.verify_result m with
        | error e =>
          simp [convert_cross_encoder_to_onnx, htok, hmod, hexp, hrt, hver,
                FS.write, FS.lookup, hpq]
        | ok s =>
          simp [convert_cross_encoder_to_onnx, htok, hmod, hexp, hrt, hver,
                FS.write, FS.lookup, hpq]

/-- Witness for C6: a concrete successful world; in particular the
conclusion applies to a filesystem that already holds a file at the
output path. -/
theorem C6_no_existence_check_overwrite_witness :
    envAllOk.load_tokenizer "m" = Except.ok ()
    ∧ envAllOk.load_model "m" = Except.ok ⟨1⟩
    ∧ envAllOk.export_result "m" 14 = Except.ok ()
    ∧ ((∀ fs₁ fs₂ : FS,
          (convert_cross_encoder_to_onnx envAllOk "m" "out.onnx" 512 14 fs₁).err
            = (convert_cross_encoder_to_onnx envAllOk "m" "out.onnx" 512 14 fs₂).err
          ∧ (convert_cross_encoder_to_onnx envAllOk "m" "out.onnx" 512 14 fs₁).log
            = (convert_cross_encoder_to_onnx envAllOk "m" "out.onnx" 512 14 fs₂).log)
       ∧ (∀ fs : FS,
          (convert_cross_encoder_to_onnx envAllOk "m" "out.onnx" 512 14 fs).fs
              = FS.write fs "out.onnx" (exportedArtifact 14)
          ∧ FS.lookup (convert_cross_encoder_to_onnx envAllOk "m" "out.onnx" 512 14 fs).fs
                "out.onnx" = some (exportedArtifact 14)
          ∧ (∀ q, q ≠ "out.onnx" →
              FS.lookup (convert_cross_encoder_to_onnx envAllOk "m" "out.onnx" 512 14 fs).fs q
                = FS.lookup fs q))) :=
  ⟨rfl, rfl, rfl,
   C6_no_existence_check_overwrite envAllOk "m" "out.onnx" 512 14 ⟨1⟩ rfl rfl rfl⟩

/-- C3 (code bug): with a mandatory library missing, the process does exit
without attempting any conversion, but the guidance message is never
printed: the module-level import at source line 10 raises an uncaught
ModuleNotFoundError before the try/except guard of the `__main__` block
(lines 175-181) can run, so the run dies with an empty log and an
untouched filesystem. -/
theorem C3_missing_dependency_no_guidance :
    run_script envTorchMissing defaultArgs []
      = ⟨[], [], ExitKind.uncaught "ModuleNotFoundError: No module named torch"⟩
    ∧ ¬ "❌ Missing dependencies!" ∈ (run_script envTorchMissing defaultArgs []).log := by
  refine ⟨rfl, ?_⟩
  intro hmem
  rw [show (run_script envTorchMissing defaultArgs []).log = [] from rfl] at hmem
  exact List.not_mem_nil _ hmem

/-- Helper: the batch loop never propagates an exception — the `err`
component of any batch outcome over a nonempty output directory is `none`;
more precisely, the loop itself is a total function into filesystem and
log, whatever the conversion outcomes are.  Stated here as: the driver
over the fixed list reports no error once the directory was created. -/
theorem run_batch_never_aborts (env : Env) (dir : String) (fs : FS)
    (hdir : dir ≠ "") :
    (download_and_convert_popular_models env dir fs).err = none := by
  have hmk : os_makedirs dir = Except.ok () := by simp [os_makedirs, hdir]
  simp [download_and_convert_popular_models, hmk]

/-- C2: in batch mode a failure converting one pair is caught, logged as a
failure line carrying the model name and the error message, and the loop
continues with the next pair; the driver reports no exception, and the
process exits with status 0 even when individual items failed. -/
theorem C2_batch_failure_isolation (env : Env) (dir : String) (fs : FS)
    (htorch : env.torch_importable = true)
    (htrans : env.transformers_importable = true)
    (hdir : dir ≠ "") :
    (download_and_convert_popular_models env dir fs).err = none
    ∧ (∀ ml out len,
        (run_script env ⟨ml, out, len, true, dir⟩ fs).exit = ExitKind.code 0)
    ∧ (∀ m name rest (fs₀ : FS) e,
        FS.existsFile fs₀ (os_path_join dir name) = false →
        (convert_cross_encoder_to_onnx env m (os_path_join dir name) 512 14 fs₀).err
          = some e →
        run_batch env dir ((m, name) :: rest) fs₀
          = ((run_batch env dir rest
                (convert_cross_encoder_to_onnx env m (os_path_join dir name) 512 14 fs₀).fs).1,
             (convert_cross_encoder_to_onnx env m (os_path_join dir name) 512 14 fs₀).log
               ++ ("❌ Failed to convert " ++ m ++ ": " ++ e)
                 :: (run_batch env dir rest
                      (convert_cross_encoder_to_onnx env m
                        (os_path_join dir name) 512 14 fs₀).fs).2)) := by
  refine ⟨run_batch_never_aborts env dir fs hdir, ?_, ?_⟩
  · intro ml out len
    have herr := run_batch_never_aborts env dir fs hdir
    simp only [run_script, script_main, htorch, htrans, if_true, Bool.and_self]
    simp [herr]
  · intro m name rest fs₀ e hex herr
    simp [run_batch, hex, herr]

/-- Witness for C2: a concrete world where loading the second batch model
raises; the batch reports no error, the batch-mode process exits 0, and a
failing pair contributes its failure line and lets the loop continue. -/
theorem C2_batch_failure_isolation_witness :
    envSecondFails.torch_importable = true
    ∧ envSecondFails.transformers_importable = true
    ∧ "models" ≠ ""
    ∧ (download_and_convert_popular_models envSecondFails "models" []).err = none
    ∧ (run_script envSecondFails ⟨"a", "b.onnx", 7, true, "models"⟩ []).exit
        = ExitKind.code 0
    ∧ run_batch envSecondFails "models"
          [("cross-encoder/ms-marco-MiniLM-L12-v2", "f.onnx")] []
        = ((run_batch envSecondFails "models" []
              (convert_cross_encoder_to_onnx envSecondFails
                "cross-encoder/ms-marco-MiniLM-L12-v2"
                (os_path_join "models" "f.onnx") 512 14 []).fs).1,
           (convert_cross_encoder_to_onnx envSecondFails
              "cross-encoder/ms-marco-MiniLM-L12-v2"
              (os_path_join "models" "f.onnx") 512 14 []).log
             ++ ("❌ Failed to convert " ++ "cross-encoder/ms-marco-MiniLM-L12-v2"
                  ++ ": " ++ "HTTPError")
               :: (run_batch envSecondFails "models" []
                    (convert_cross_encoder_to_onnx envSecondFails
                      "cross-encoder/ms-marco-MiniLM-L12-v2"
                      (os_path_join "models" "f.onnx") 512 14 []).fs).2) :=
  ⟨rfl, rfl, by decide,
   (C2_batch_failure_isolation envSecondFails "models" [] rfl rfl (by decide)).1,
   (C2_batch_failure_isolation envSecondFails "models" [] rfl rfl (by decide)).2.1
      "a" "b.onnx" 7,
   (C2_batch_failure_isolation envSecondFails "models" [] rfl rfl (by decide)).2.2
      "cross-encoder/ms-marco-MiniLM-L12-v2" "f.onnx" [] [] "HTTPError" rfl rfl⟩

/-- Helper: when every pair of a job list already has its output file,
the batch loop leaves the filesystem unchanged and prints only the skip
lines, one per pair. -/
theorem run_batch_all_skip (env : Env) (dir : String) :
    ∀ (l : List (String × String)) (fs : FS),
      (∀ pr ∈ l, FS.existsFile fs (os_path_join dir pr.2) = true) →
      run_batch env dir l fs
        = (fs, l.map (fun pr => "⏭️ " ++ pr.2 ++ " already exists, skipping...")) := by
  intro l
  induction l with
  | nil => intro fs _; simp [run_batch]
  | cons pr rest ih =>
    intro fs h
    have h1 := h pr (List.mem_cons_self pr rest)
    have hrest : ∀ q ∈ rest, FS.existsFile fs (os_path_join dir q.2) = true :=
      fun q hq => h q (List.mem_cons_of_mem pr hq)
    simp [run_batch, h1, ih fs hrest]

/-- C4: a batch pair whose destination file exists is skipped, the
filesystem and the processing of the remaining pairs being exactly those
of the loop without that pair; consequently, a batch run over a directory
in which every listed output already exists performs zero conversions,
prints only the three skip lines, and leaves the filesystem unchanged. -/
theorem C4_idempotent_skip (env : Env) (dir : String) (fs : FS)
    (hdir : dir ≠ "")
    (hall : ∀ pr ∈ models, FS.existsFile fs (os_path_join dir pr.2) = true) :
    (∀ m name rest (fs₀ : FS),
        FS.existsFile fs₀ (os_path_join dir name) = true →
        run_batch env dir ((m, name) :: rest) fs₀
          = ((run_batch env dir rest fs₀).1,
             ("⏭️ " ++ name ++ " already exists, skipping...")
               :: (run_batch env dir rest fs₀).2))
    ∧ (download_and_convert_popular_models env dir fs).fs = fs
    ∧ (download_and_convert_popular_models env dir fs).err = none
    ∧ (download_and_convert_popular_models env dir fs).log
        = models.map (fun pr => "⏭️ " ++ pr.2 ++ " already exists, skipping...") := by
  have hmk : os_makedirs dir = Except.ok () := by simp [os_makedirs, hdir]
  have hrb := run_batch_all_skip env dir models fs hall
  refine ⟨?_, ?_, ?_, ?_⟩
  · intro m name rest fs₀ hex
    simp [run_batch, hex]
  · simp [download_and_convert_popular_models, hmk, hrb]
  · simp [download_and_convert_popular_models, hmk]
  · simp [download_and_convert_popular_models, hmk, hrb]

/-- Witness for C4: with all three batch outputs already present under
"models", the second run changes nothing and only prints skip lines. -/
theorem C4_idempotent_skip_witness :
    "models" ≠ ""
    ∧ (∀ pr ∈ models, FS.existsFile fsAllExisting (os_path_join "models" pr.2) = true)
    ∧ ((∀ m name rest (fs₀ : FS),
          FS.existsFile fs₀ (os_path_join "models" name) = true →
          run_batch envAllOk "models" ((m, name) :: rest) fs₀
            = ((run_batch envAllOk "models" rest fs₀).1,
               ("⏭️ " ++ name ++ " already exists, skipping...")
                 :: (run_batch envAllOk "models" rest fs₀).2))
       ∧ (download_and_convert_popular_models envAllOk "models" fsAllExisting).fs
            = fsAllExisting
       ∧ (download_and_convert_popular_models envAllOk "models" fsAllExisting).err = none
       ∧ (download_and_convert_popular_models envAllOk "models" fsAllExisting).log
            = models.map (fun pr => "⏭️ " ++ pr.2 ++ " already exists, skipping...")) :=
  ⟨by decide, by decide,
   C4_idempotent_skip envAllOk "models" fsAllExisting (by decide) (by decide)⟩

/-- C9: in single-model mode, when the --output value has no directory
component the directory-creation call receives the empty string and its
error escapes before the conversion procedure is ever called (nothing
logged, filesystem untouched); when the parent directory is non-empty,
directory creation succeeds and the run's outcome is exactly that of the
conversion procedure on the given model, output and length. -/
theorem C9_single_mode_dirname (env : Env) (args : Args) (fs : FS)
    (hb : args.download_popular = false)
    (ht : env.torch_importable = true)
    (htr : env.transformers_importable = true) :
    (os_path_dirname args.output = "" →
        run_script env args fs
          = ⟨fs, [], ExitKind.uncaught
              "FileNotFoundError: [Errno 2] No such file or directory"⟩)
    ∧ (os_path_dirname args.output ≠ "" →
        (run_script env args fs).fs
            = (convert_cross_encoder_to_onnx env args.model args.output
                args.max_length 14 fs).fs
        ∧ (run_script env args fs).log
            = (convert_cross_encoder_to_onnx env args.model args.output
                args.max_length 14 fs).log
        ∧ ((convert_cross_encoder_to_onnx env args.model args.output
              args.max_length 14 fs).err = none →
            (run_script env args fs).exit = ExitKind.code 0)
        ∧ (∀ e, (convert_cross_encoder_to_onnx env args.model args.output
              args.max_length 14 fs).err = some e →
            (run_script env args fs).exit = ExitKind.uncaught e)) := by
  constructor
  · intro hd
    have hmk : os_makedirs (os_path_dirname args.output)
        = Except.error "FileNotFoundError: [Errno 2] No such file or directory" := by
      simp [os_makedirs, hd]
    simp [run_script, script_main, ht, htr, hb, hmk]
  · intro hd
    have hmk : os_makedirs (os_path_dirname args.output) = Except.ok () := by
      simp [os_makedirs, hd]
    refine ⟨?_, ?_, ?_, ?_⟩
    · cases hc : (convert_cross_encoder_to_onnx env args.model args.output
          args.max_length 14 fs).err <;>
        simp [run_script, script_main, ht, htr, hb, hmk, hc]
    · cases hc : (convert_cross_encoder_to_onnx env args.model args.output
          args.max_length 14 fs).err <;>
        simp [run_script, script_main, ht, htr, hb, hmk, hc]
    · intro hc
      simp [run_script, script_main, ht, htr, hb, hmk, hc]
    · intro e hc
      simp [run_script, script_main, ht, htr, hb, hmk, hc]

/-- Witness for C9: with --output "model.onnx" the run dies on the empty
dirname without conversion; with the default --output
"models/cross-encoder.onnx" the run is the conversion's outcome and, all
calls succeeding, exits 0. -/
theorem C9_single_mode_dirname_witness :
    os_path_dirname "model.onnx" = ""
    ∧ run_script envAllOk ⟨"m", "model.onnx", 512, false, "models"⟩ []
        = ⟨[], [], ExitKind.uncaught
            "FileNotFoundError: [Errno 2] No such file or directory"⟩
    ∧ os_path_dirname "models/cross-encoder.onnx" ≠ ""
    ∧ (run_script envAllOk defaultArgs []).fs
        = (convert_cross_encoder_to_onnx envAllOk defaultArgs.model defaultArgs.output
            defaultArgs.max_length 14 []).fs
    ∧ (run_script envAllOk defaultArgs []).exit = ExitKind.code 0 :=
  ⟨by decide,
   (C9_single_mode_dirname envAllOk ⟨"m", "model.onnx", 512, false, "models"⟩ []
      rfl rfl rfl).1 (by decide),
   by decide,
   ((C9_single_mode_dirname envAllOk defaultArgs [] rfl rfl rfl).2 (by decide)).1,
   ((C9_single_mode_dirname envAllOk defaultArgs [] rfl rfl rfl).2 (by decide)).2.2.1 rfl⟩

/-- C10: with the batch flag set, the --model, --output and --max-length
arguments have no effect: two batch runs agreeing on the output directory
are identical runs, and every batch conversion is invoked with the
procedure defaults max_length 512 and opset 14. -/
theorem C10_batch_ignores_single_args (env : Env) (fs : FS) (a₁ a₂ : Args)
    (h₁ : a₁.download_popular = true) (h₂ : a₂.download_popular = true)
    (hdir : a₁.output_dir = a₂.output_dir) :
    run_script env a₁ fs = run_script env a₂ fs
    ∧ (∀ m name rest (fs₀ : FS),
        FS.existsFile fs₀ (os_path_join a₁.output_dir name) = false →
        run_batch env a₁.output_dir ((m, name) :: rest) fs₀
          = (match (convert_cross_encoder_to_onnx env m
                (os_path_join a₁.output_dir name) 512 14 fs₀).err with
             | none =>
               ((run_batch env a₁.output_dir rest
                   (convert_cross_encoder_to_onnx env m
                     (os_path_join a₁.output_dir name) 512 14 fs₀).fs).1,
                (convert_cross_encoder_to_onnx env m
                   (os_path_join a₁.output_dir name) 512 14 fs₀).log
                  ++ (run_batch env a₁.output_dir rest
                       (convert_cross_encoder_to_onnx env m
                         (os_path_join a₁.output_dir name) 512 14 fs₀).fs).2)
             | some e =>
               ((run_batch env a₁.output_dir rest
                   (convert_cross_encoder_to_onnx env m
                     (os_path_join a₁.output_dir name) 512 14 fs₀).fs).1,
                (convert_cross_encoder_to_onnx env m
                   (os_path_join a₁.output_dir name) 512 14 fs₀).log
                  ++ ("❌ Failed to convert " ++ m ++ ": " ++ e)
                    :: (run_batch env a₁.output_dir rest
                         (convert_cross_encoder_to_onnx env m
                           (os_path_join a₁.output_dir name) 512 14 fs₀).fs).2))) := by
  constructor
  · cases ht : env.torch_importable with
    | false => simp [run_script, ht]
    | true =>
      cases htr : env.transformers_importable with
      | false => simp [run_script, ht, htr]
      | true => simp [run_script, script_main, ht, htr, h₁, h₂, hdir]
  · intro m name rest fs₀ hex
    cases hc : (convert_cross_encoder_to_onnx env m
        (os_path_join a₁.output_dir name) 512 14 fs₀).err <;>
      simp [run_batch, hex, hc]

/-- Witness for C10: two batch runs sharing only the output directory are
identical, and a concrete non-skipped pair is converted with 512 and 14. -/
theorem C10_batch_ignores_single_args_witness :
    (⟨"x", "y.onnx", 1, true, "models"⟩ : Args).download_popular = true
    ∧ (⟨"z", "w.onnx", 9, true, "models"⟩ : Args).download_popular = true
    ∧ (⟨"x", "y.onnx", 1, true, "models"⟩ : Args).output_dir
        = (⟨"z", "w.onnx", 9, true, "models"⟩ : Args).output_dir
    ∧ run_script envAllOk ⟨"x", "y.onnx", 1, true, "models"⟩ []
        = run_script envAllOk ⟨"z", "w.onnx", 9, true, "models"⟩ []
    ∧ run_batch envAllOk "models" [("mm", "g.onnx")] []
        = (match (convert_cross_encoder_to_onnx envAllOk "mm"
              (os_path_join "models" "g.onnx") 512 14 []).err with
           | none =>
             ((run_batch envAllOk "models" []
                 (convert_cross_encoder_to_onnx envAllOk "mm"
                   (os_path_join "models" "g.onnx") 512 14 []).fs).1,
              (convert_cross_encoder_to_onnx envAllOk "mm"
                 (os_path_join "models" "g.onnx") 512 14 []).log
                ++ (run_batch envAllOk "models" []
                     (convert_cross_encoder_to_onnx envAllOk "mm"
                       (os_path_join "models" "g.onnx") 512 14 []).fs).2)
           | some e =>
             ((run_batch envAllOk "models" []
                 (convert_cross_encoder_to_onnx envAllOk "mm"
                   (os_path_join "models" "g.onnx") 512 14 []).fs).1,
              (convert_cross_encoder_to_onnx envAllOk "mm"
                 (os_path_join "models" "g.onnx") 512 14 []).log
                ++ ("❌ Failed to convert " ++ "mm" ++ ": " ++ e)
                  :: (run_batch envAllOk "models" []
                       (convert_cross_encoder_to_onnx envAllOk "mm"
                         (os_path_join "models" "g.onnx") 512 14 []).fs).2)) :=
  ⟨rfl, rfl, rfl,
   (C10_batch_ignores_single_args envAllOk [] ⟨"x", "y.onnx", 1, true, "models"⟩
      ⟨"z", "w.onnx", 9, true, "models"⟩ rfl rfl rfl).1,
   (C10_batch_ignores_single_args envAllOk [] ⟨"x", "y.onnx", 1, true, "models"⟩
      ⟨"z", "w.onnx", 9, true, "models"⟩ rfl rfl rfl).2 "mm" "g.onnx" [] [] rfl⟩
